import Mathlib

/-!
Shallow embedding of the `competing-llm` backend (Python/FastAPI) and proofs
about it.

Conventions of the embedding:
* Python exceptions become the `PyError` inductive; a function that can raise
  returns `Except PyError _`.
* `random.random()` / `random.randint(...)` draws are externalized as explicit
  parameters (`rand : ℚ` for the error draw in `[0,1)`, `target : Nat` for the
  response-length draw); probabilities are rationals.
* Wall-clock timestamps and inter-chunk sleeps are dropped: no claim depends on
  real time, only on the order and content of emitted values.
* Async generators are modelled by the finite list of values they yield,
  together with the exception (if any) raised after those values were yielded.
-/

deriving instance DecidableEq for Except

namespace CompetingLLM

/-- Python-level exceptions raised by the backend code
(`llm_mock.py` defines the first four; `KeyError`/`AttributeError` are
built-ins raised by `str.format` and attribute access). -/
inductive PyError where
  | valueError (msg : String)
  | rateLimitError (msg : String)
  | llmTimeoutError (msg : String)
  | llmServiceError (msg : String)
  | keyError (key : String)
  | attributeError (attr : String)
deriving DecidableEq, Repr

/-- Python `str(e)` for the exceptions above (Python renders `KeyError('name')`
as `'name'`). -/
def PyError.msg : PyError → String
  | .valueError m => m
  | .rateLimitError m => m
  | .llmTimeoutError m => m
  | .llmServiceError m => m
  | .keyError k => "\x27" ++ k ++ "\x27"
  | .attributeError a => a

/-- Embedding of `MockLLMConfig` from `llm_mock.py`: per-model response-length ranges and
the three error-simulation probability bands (`ERROR_RATES`). The delay
window is dropped (timing only). -/
structure MockLLMConfig where
  RESPONSE_LENGTHS : List (Int × Nat × Nat)
  rate_limit : ℚ
  timeout : ℚ
  service_error : ℚ
deriving DecidableEq, Repr

/-- The class-level defaults of `MockLLMConfig`. -/
def defaultMockConfig : MockLLMConfig :=
  { RESPONSE_LENGTHS := [(1, 30, 60), (2, 70, 100), (3, 50, 80), (4, 40, 90), (5, 60, 120)]
    rate_limit := mkRat 5 100
    timeout := mkRat 3 100
    service_error := mkRat 2 100 }

/-- Lookup `config.RESPONSE_LENGTHS[llm_id]`: lookup of the (min,max) length range. -/
def MockLLMConfig.lengthFor (cfg : MockLLMConfig) (llm_id : Int) : Option (Nat × Nat) :=
  (cfg.RESPONSE_LENGTHS.find? (fun e => e.1 == llm_id)).map (fun e => e.2)

/-- Embedding of `_simulate_errors` from `llm_mock.py`: one uniform draw `rand` checked
against the three cumulative bands; the first matching band raises. -/
def simulateErrors (cfg : MockLLMConfig) (rand : ℚ) : Option PyError :=
  if rand < cfg.rate_limit then
    some (.rateLimitError "Rate limit exceeded. Please try again later.")
  else if rand < cfg.rate_limit + cfg.timeout then
    some (.llmTimeoutError "Request timed out. The LLM service is taking too long to respond.")
  else if rand < cfg.rate_limit + cfg.timeout + cfg.service_error then
    some (.llmServiceError "LLM service is temporarily unavailable. Please try again later.")
  else none

/-- Python `c.isspace()`-style whitespace (the characters `str.strip`
removes). -/
def pyIsSpace (c : Char) : Bool :=
  (c == ' ') || (c == '\t') || (c == '\n') || (c == '\r') || (c == '\x0b') || (c == '\x0c')

/-- Python `s.strip()`. -/
def pyStrip (s : String) : String :=
  String.mk (((s.toList.dropWhile pyIsSpace).reverse.dropWhile pyIsSpace).reverse)

/-- Python `s.lower()`. -/
def pyLower (s : String) : String := String.mk (s.toList.map Char.toLower)

/-- Keys of `MockLLMConfig.ANSWER_TEMPLATES`, in dict insertion order. -/
def ANSWER_TEMPLATE_KEYS : List String := ["hello", "help", "weather", "code", "default"]

/-- Python `sub in s` (substring containment). -/
def strContains (s sub : String) : Bool :=
  s.toList.tails.any (fun t => sub.toList.isPrefixOf t)

/-- The key-selection loop of `_generate_response`: the first template key that
occurs in the lowercased, stripped prompt, defaulting to `"default"`. -/
def findTemplateKey (promptLower : String) : String :=
  match ANSWER_TEMPLATE_KEYS.find? (fun k => strContains promptLower k) with
  | some k => k
  | none => "default"

/-- The slice `prompt[:50] + "..." if len(prompt) > 50 else prompt` from
`_generate_response`. -/
def promptEcho (prompt : String) : String :=
  if prompt.length > 50 then String.mk (prompt.toList.take 50) ++ "..." else prompt

/-- Formatting `ANSWER_TEMPLATES[key].format(llm_id=..., prompt=...)`.  The `"code"`
template contains the literal placeholder `\x7bname\x7d` coming from an
f-string-styled code sample, for which `str.format` receives no keyword
argument, so formatting that template raises `KeyError` (`none` here); the
other four templates format successfully. -/
def formatTemplate (key : String) (llm_id : Int) (prompt : String) : Option String :=
  if key = "hello" then
    some ("Hello! I\x27m LLM " ++ toString llm_id ++ ", ready to assist you with your questions.")
  else if key = "help" then
    some ("As LLM " ++ toString llm_id ++
      ", I can help you with various tasks including answering questions, providing information, and assisting with problem-solving.")
  else if key = "weather" then
    some ("LLM " ++ toString llm_id ++
      " reports: The weather today is sunny with a temperature of 72°F. Perfect conditions for outdoor activities!")
  else if key = "code" then
    none
  else
    some ("This is a response from LLM " ++ toString llm_id ++
      " providing insights on your query: " ++ promptEcho prompt)

/-- The padding text appended by `_generate_response` when the base response is
shorter than the target length. -/
def ADDITIONAL_TEXT (llm_id : Int) : String :=
  " This response from LLM " ++ toString llm_id ++
    " includes additional details to provide comprehensive assistance."

/-- The length-adjustment step of `_generate_response`: pad with a slice of the
additional text, or truncate, to hit the drawn target length. -/
def adjustLength (base : String) (llm_id : Int) (target : Nat) : String :=
  if base.length < target then
    base ++ String.mk ((ADDITIONAL_TEXT llm_id).toList.take (target - base.length))
  else if base.length > target then
    String.mk (base.toList.take target)
  else base

/-- Embedding of `_generate_response` from `llm_mock.py`, with the `random.randint` length
draw externalized as `target`. -/
def generateResponse (llm_id : Int) (prompt : String) (target : Nat) : Except PyError String :=
  match formatTemplate (findTemplateKey (pyStrip (pyLower prompt))) llm_id prompt with
  | none => .error (.keyError "name")
  | some base => .ok (adjustLength base llm_id target)

/-- The per-chunk dict yielded by the streaming functions (`chunk_id`, `text`,
`llm_id`, `is_complete`; the ISO timestamp is dropped, `source_llm` is the tag
added by `batch_mock_llm_stream`). -/
structure Chunk where
  chunk_id : Nat
  text : String
  llm_id : Int
  is_complete : Bool
  source_llm : Option Int := none
deriving DecidableEq, Repr

/-- The character loop of `mock_llm_stream`: one non-final chunk per character,
with `chunk_id` incremented before each yield (`counter` is the value of
`chunk_id` entering the loop, `0` at the start). -/
def charChunks (llm_id : Int) (cs : List Char) (counter : Nat) : List Chunk :=
  match cs with
  | [] => []
  | c :: rest =>
    { chunk_id := counter + 1, text := String.mk [c], llm_id := llm_id, is_complete := false }
      :: charChunks llm_id rest (counter + 1)

/-- The input validation shared verbatim by `mock_llm_stream` and
`mock_llm_completion`: empty/whitespace prompt, then unknown llm id. `none`
means validation passed. -/
def validateMockInputs (cfg : MockLLMConfig) (llm_id : Int) (prompt : String) : Option PyError :=
  if pyStrip prompt = "" then some (.valueError "Prompt cannot be empty")
  else if (cfg.lengthFor llm_id).isNone then
    some (.valueError ("Invalid LLM ID: " ++ toString llm_id ++ ". Must be one of "
      ++ toString (cfg.RESPONSE_LENGTHS.map (fun e => e.1))))
  else none

/-- Embedding of `mock_llm_stream` from `llm_mock.py`: validate, roll the error draw,
generate the response, then yield one chunk per character followed by the
terminal chunk (`text = ""`, `is_complete = True`, `chunk_id` one past the last
character chunk). An exception before the first yield makes the whole stream
raise. -/
def mockLlmStream (llm_id : Int) (prompt : String) (rand : ℚ) (target : Nat)
    (cfg : MockLLMConfig) : Except PyError (List Chunk) :=
  match validateMockInputs cfg llm_id prompt with
  | some e => .error e
  | none =>
    match simulateErrors cfg rand with
    | some e => .error e
    | none =>
      match generateResponse llm_id prompt target with
      | .error e => .error e
      | .ok text =>
        .ok (charChunks llm_id text.toList 0 ++
          [{ chunk_id := text.toList.length + 1, text := "", llm_id := llm_id,
             is_complete := true }])

/-- The dict returned by `mock_llm_completion` (`llm_id`, `prompt`, `content`;
timestamp dropped).  Note it has no error field at all: simulated failures
raise instead. -/
structure MockCompletion where
  llm_id : Int
  prompt : String
  content : String
deriving DecidableEq, Repr

/-- Embedding of `mock_llm_completion` from `llm_mock.py`: same validation and error draw as
the stream, then the full generated text in one result. -/
def mockLlmCompletion (llm_id : Int) (prompt : String) (rand : ℚ) (target : Nat)
    (cfg : MockLLMConfig) : Except PyError MockCompletion :=
  match validateMockInputs cfg llm_id prompt with
  | some e => .error e
  | none =>
    match simulateErrors cfg rand with
    | some e => .error e
    | none =>
      match generateResponse llm_id prompt target with
      | .error e => .error e
      | .ok text => .ok { llm_id := llm_id, prompt := prompt, content := text }

/-- One model's externalized randomness: the `random.random()` error draw and
the `random.randint` target-length draw. -/
structure Draw where
  rand : ℚ
  target : Nat
deriving DecidableEq, Repr

/-- The `for llm_id, stream in zip(llm_ids, streams)` loop of
`batch_mock_llm_stream`: each model's stream is drained COMPLETELY before the
next model's stream is touched; chunks are tagged with `source_llm`.  An
exception from one stream propagates out of the loop: the chunks already
yielded stand, the remaining models are never drained.  Returns the yielded
chunks and the propagated exception, if any. -/
def runBatchStreams (prompt : String) (cfg : MockLLMConfig) :
    List (Int × Draw) → List Chunk × Option PyError
  | [] => ([], none)
  | (llm_id, d) :: rest =>
    match mockLlmStream llm_id prompt d.rand d.target cfg with
    | .error e => ([], some e)
    | .ok cs =>
      let tagged := cs.map fun c => { c with source_llm := some llm_id }
      let (more, err) := runBatchStreams prompt cfg rest
      (tagged ++ more, err)

/-- Embedding of `batch_mock_llm_stream` from `llm_mock.py`: rejects an empty id list, then
drains the per-model streams sequentially (see `runBatchStreams`). -/
def batchMockLlmStream (llm_ids : List Int) (prompt : String) (draws : List Draw)
    (cfg : MockLLMConfig) : List Chunk × Option PyError :=
  if llm_ids.isEmpty then
    ([], some (.valueError "At least one LLM ID must be provided"))
  else runBatchStreams prompt cfg (llm_ids.zip draws)

/-- A server-sent event as produced by the generators in `api/chat.py`: either
a `chunk` event wrapping a streamed chunk, or an `error` event with the
`error` kind, the message, and the `llm_id` field of the error payload
(`none` when the payload carries no llm id). -/
inductive SSEEvent where
  | chunk (c : Chunk)
  | error (kind : String) (message : String) (llm_id : Option Int)
deriving DecidableEq, Repr

/-- The per-exception-type error events of `_stream_single_llm`: the three
simulated errors keep their message and are tagged with the llm id; any other
exception becomes a generic `internal_error` event. -/
def singleStreamErrorEvent (llm_id : Int) : PyError → SSEEvent
  | .rateLimitError m => .error "rate_limit" m (some llm_id)
  | .llmTimeoutError m => .error "timeout" m (some llm_id)
  | .llmServiceError m => .error "service_error" m (some llm_id)
  | _ => .error "internal_error" "An unexpected error occurred" (some llm_id)

/-- Embedding of `_stream_single_llm` from `api/chat.py`: wrap each chunk in a `chunk`
event; a raised exception (always before the first chunk in the mock) yields a
single tagged error event. -/
def streamSingleLlm (llm_id : Int) (prompt : String) (d : Draw)
    (cfg : MockLLMConfig) : List SSEEvent :=
  match mockLlmStream llm_id prompt d.rand d.target cfg with
  | .ok cs => cs.map .chunk
  | .error e => [singleStreamErrorEvent llm_id e]

/-- Embedding of `_stream_batch_llms` from `api/chat.py`: wrap each merged chunk in a
`chunk` event; ANY exception escaping the merge yields one generic
`batch_error` event whose payload has no llm id, and ends the merged stream. -/
def streamBatchLlms (llm_ids : List Int) (prompt : String) (draws : List Draw)
    (cfg : MockLLMConfig) : List SSEEvent :=
  let r := batchMockLlmStream llm_ids prompt draws cfg
  r.1.map .chunk ++
    (match r.2 with
     | some e => [.error "batch_error" e.msg none]
     | none => [])

/-- Semantics of `await asyncio.gather(*tasks)` (without `return_exceptions`): every task
runs to completion or failure, and if any task raised, the gather call itself
raises one of the raised exceptions instead of returning the list of results
in task order.  The first-raised exception is modelled as the first error in
task order. -/
def gatherExcept {α : Type} : List (Except PyError α) → Except PyError (List α)
  | [] => .ok []
  | .error e :: _ => .error e
  | .ok a :: rest => (gatherExcept rest).map (fun as => a :: as)

/-- Embedding of `batch_mock_llm_completion` from `llm_mock.py`: rejects an empty id list,
then gathers one `mock_llm_completion` per id.  Per-model exceptions are NOT
captured into the result list: any one of them fails the whole gather. -/
def batchMockLlmCompletion (llm_ids : List Int) (prompt : String) (draws : List Draw)
    (cfg : MockLLMConfig) : Except PyError (List MockCompletion) :=
  if llm_ids.isEmpty then .error (.valueError "At least one LLM ID must be provided")
  else
    gatherExcept ((llm_ids.zip draws).map fun p =>
      mockLlmCompletion p.1 prompt p.2.rand p.2.target cfg)

/-- Whether `mock_llm_completion(llm_id, prompt, ...)` reaches its simulated
backend work (the error draw and response generation), i.e. whether its input
validation passes.  Under `asyncio.gather` every per-model coroutine runs, so
in a batch this is decided per model, not for the request as a whole. -/
def mockBackendDispatched (cfg : MockLLMConfig) (llm_id : Int) (prompt : String) : Bool :=
  (validateMockInputs cfg llm_id prompt).isNone

/-- The models of a batch whose simulated backend work actually runs when
`batch_mock_llm_completion` executes. -/
def batchDispatchedModels (cfg : MockLLMConfig) (llm_ids : List Int) (prompt : String) :
    List Int :=
  llm_ids.filter (fun i => mockBackendDispatched cfg i prompt)

/-- An error surfaced at the HTTP boundary: a pydantic request-validation
failure (FastAPI status 422) or an `HTTPException` raised by a handler. -/
inductive HTTPError where
  | validation (msg : String)
  | http (status : Nat) (detail : String)
deriving DecidableEq, Repr

/-- The `prompt` field validation shared by `ChatRequest` and
`BatchChatRequest` in `models/llm.py`: `Field(min_length=1, max_length=1000)`
plus the `validate_prompt` validator, which strips the value. -/
def validatePromptV1 (prompt : String) : Except HTTPError String :=
  if prompt.length < 1 then .error (.validation "String should have at least 1 character")
  else if prompt.length > 1000 then
    .error (.validation "String should have at most 1000 characters")
  else if pyStrip prompt = "" then
    .error (.validation "Prompt cannot be empty or just whitespace")
  else .ok (pyStrip prompt)

/-- The `llm_id` field of `ChatRequest` in `models/llm.py`:
`Field(ge=1, le=5)`. -/
def validateLlmIdV1 (llm_id : Int) : Except HTTPError Int :=
  if llm_id < 1 then .error (.validation "Input should be greater than or equal to 1")
  else if llm_id > 5 then .error (.validation "Input should be less than or equal to 5")
  else .ok llm_id

/-- The `llm_ids` field of `BatchChatRequest` in `models/llm.py`:
`Field(min_items=1, max_items=5)` plus the `validate_llm_ids` validator
(non-empty, each id in 1..5, then `len(set(v)) != len(v)` rejects
duplicates). -/
def validateLlmIdsV1 (ids : List Int) : Except HTTPError (List Int) :=
  if ids.length < 1 then .error (.validation "List should have at least 1 item")
  else if ids.length > 5 then .error (.validation "List should have at most 5 items")
  else if ids.isEmpty then .error (.validation "At least one LLM ID must be provided")
  else
    match ids.find? (fun i => decide (i < 1) || decide (5 < i)) with
    | some i =>
      .error (.validation ("Invalid LLM ID: " ++ toString i ++ ". Must be between 1 and 5"))
    | none =>
      if ids.dedup.length ≠ ids.length then
        .error (.validation "Duplicate LLM IDs are not allowed")
      else .ok ids

/-- The `ChatResponse` wire record of `models/llm.py` (timestamp dropped). -/
structure ChatResponseV1 where
  llm_id : Int
  prompt : String
  content : String
deriving DecidableEq, Repr

/-- The `except` ladder of the `/api/chat/completion` handler: ValueError→400,
RateLimitError→429, LLMTimeoutError→408, LLMServiceError→503, anything
else→500. -/
def httpStatusFor : PyError → HTTPError
  | .valueError m => .http 400 m
  | .rateLimitError m => .http 429 m
  | .llmTimeoutError m => .http 408 m
  | .llmServiceError m => .http 503 m
  | _ => .http 500 "Internal server error"

/-- Embedding of `POST /api/chat/completion` (`chat_completion` in `api/chat.py`): FastAPI
first validates the `ChatRequest` body (pydantic; failures are 422 and the
handler never runs), then the handler calls `mock_llm_completion` and maps
exceptions to statuses.  The second component lists the models whose simulated
backend work ran. -/
def chatCompletionV1 (prompt : String) (llm_id : Int) (d : Draw)
    (cfg : MockLLMConfig) : Except HTTPError ChatResponseV1 × List Int :=
  match validatePromptV1 prompt with
  | .error e => (.error e, [])
  | .ok p =>
    match validateLlmIdV1 llm_id with
    | .error e => (.error e, [])
    | .ok i =>
      let dispatched := batchDispatchedModels cfg [i] p
      match mockLlmCompletion i p d.rand d.target cfg with
      | .ok r => (.ok { llm_id := r.llm_id, prompt := r.prompt, content := r.content }, dispatched)
      | .error e => (.error (httpStatusFor e), dispatched)

/-- Embedding of `BatchChatResponse` of `models/llm.py` (timestamp dropped). -/
structure BatchChatResponseV1 where
  responses : List ChatResponseV1
deriving DecidableEq, Repr

/-- Embedding of `POST /api/chat/completion/batch` (`batch_chat_completion` in
`api/chat.py`): pydantic validation of `BatchChatRequest` first, then the
handler gathers the mock completions; its `except` ladder only maps
ValueError→400, anything else→500.  Second component as in
`chatCompletionV1`. -/
def batchChatCompletionV1 (prompt : String) (llm_ids : List Int) (draws : List Draw)
    (cfg : MockLLMConfig) : Except HTTPError BatchChatResponseV1 × List Int :=
  match validatePromptV1 prompt with
  | .error e => (.error e, [])
  | .ok p =>
    match validateLlmIdsV1 llm_ids with
    | .error e => (.error e, [])
    | .ok ids =>
      let dispatched := batchDispatchedModels cfg ids p
      match batchMockLlmCompletion ids p draws cfg with
      | .ok rs =>
        (.ok { responses := rs.map fun r =>
            { llm_id := r.llm_id, prompt := r.prompt, content := r.content } }, dispatched)
      | .error (.valueError m) => (.error (.http 400 m), dispatched)
      | .error _ => (.error (.http 500 "Internal server error"), dispatched)

/-- Embedding of `POST /api/chat/stream/batch` (`stream_batch_chat` in `api/chat.py`):
pydantic validation of `BatchChatRequest`, then the event stream of
`_stream_batch_llms`.  Second component as in `chatCompletionV1`. -/
def streamBatchChatV1 (prompt : String) (llm_ids : List Int) (draws : List Draw)
    (cfg : MockLLMConfig) : Except HTTPError (List SSEEvent) × List Int :=
  match validatePromptV1 prompt with
  | .error e => (.error e, [])
  | .ok p =>
    match validateLlmIdsV1 llm_ids with
    | .error e => (.error e, [])
    | .ok ids =>
      (.ok (streamBatchLlms ids p draws cfg), batchDispatchedModels cfg ids p)

/-- Embedding of `POST /api/chat/stream` (`stream_chat` in `api/chat.py`): pydantic
validation of `ChatRequest`, then the event stream of `_stream_single_llm`.
Second component as in `chatCompletionV1`. -/
def streamChatV1 (prompt : String) (llm_id : Int) (d : Draw)
    (cfg : MockLLMConfig) : Except HTTPError (List SSEEvent) × List Int :=
  match validatePromptV1 prompt with
  | .error e => (.error e, [])
  | .ok p =>
    match validateLlmIdV1 llm_id with
    | .error e => (.error e, [])
    | .ok i =>
      (.ok (streamSingleLlm i p d cfg), batchDispatchedModels cfg [i] p)

/-- Embedding of `LLMInfo` from `models/schema.py`, with exactly the fields the pydantic
class DECLARES (the class body assigns `reasoning_model` twice; that is still
one declared field).  Note there is NO `api_provider` field. -/
structure LLMInfoV2 where
  llm_id : String
  provider : String
  name : String
  description : String
  avg_response_length : String
  reasoning_model : Bool
  speed_rating : String
deriving DecidableEq, Repr

/-- The declared field names of `LLMInfo` in `models/schema.py`; pydantic
attribute access succeeds exactly on these. -/
def llmInfoV2Fields : List String :=
  ["llm_id", "provider", "name", "description", "avg_response_length",
   "reasoning_model", "speed_rating"]

/-- The declared field names of `ChatRequest` in `models/schema.py`. -/
def chatRequestV2Fields : List String := ["prompt", "llm_id"]

/-- The declared field names of `BatchChatRequest` in `models/schema.py`. -/
def batchChatRequestV2Fields : List String := ["prompt", "llm_ids"]

/-- Embedding of `AVAILABLE_LLMS` from `configuration/model_registry.py`.  Each entry is
constructed with an `api_provider=...` keyword argument, but `LLMInfo`
declares no such field, so pydantic (default `extra="ignore"`) silently drops
those values: they are not part of the registry entries. -/
def AVAILABLE_LLMS : List LLMInfoV2 :=
  [{ llm_id := "gpt-5-nano", provider := "OpenAI", name := "GPT-5 Nano",
     description := "Next-gen efficient model with reasoning capabilities",
     avg_response_length := "Medium", speed_rating := "Fast", reasoning_model := true },
   { llm_id := "gpt-4.1", provider := "OpenAI", name := "GPT-4.1",
     description := "High-intelligence model for complex tasks",
     avg_response_length := "Long", speed_rating := "Medium", reasoning_model := false },
   { llm_id := "x-ai/grok-4.1-fast:free", provider := "Grok", name := "grok-4.1-fast",
     description := "Fast and efficient model for complex tasks",
     avg_response_length := "Medium", speed_rating := "Fast", reasoning_model := true },
   { llm_id := "z-ai/glm-4.5-air:free", provider := "Z.AI", name := "glm-4.5-air",
     description := "Z.AI 4.5 Air model",
     avg_response_length := "Long", speed_rating := "Medium", reasoning_model := true }]

/-- Embedding of `VALID_LLM_IDS` from `model_registry.py` (a set comprehension; kept as the
duplicate-free list in registry order). -/
def VALID_LLM_IDS : List String := AVAILABLE_LLMS.map (fun l => l.llm_id)

/-- Embedding of `get_llm_info` from `model_registry.py`: linear scan of the registry. -/
def getLlmInfo (llm_id : String) : Option LLMInfoV2 :=
  AVAILABLE_LLMS.find? (fun l => l.llm_id == llm_id)

/-- A constructed provider SDK client (`AsyncAzureOpenAI` / `AsyncOpenAI`),
reduced to the provider it was built for. -/
structure AsyncLLMClient where
  provider : String
deriving DecidableEq, Repr

/-- Embedding of `create_async_llm_client` from `utils/llm_utils.py`: builds a client for
the two known providers; for any other `api_provider` the function falls off
the end and returns `None`. -/
def createAsyncLLMClient (api_provider : String) : Option AsyncLLMClient :=
  if api_provider = "Azure OpenAI" then some { provider := api_provider }
  else if api_provider = "OpenRouter" then some { provider := api_provider }
  else none

/-- The outcome of the remote completion call (`client.responses.parse` for
reasoning models or `client.chat.completions.create` for standard ones): the
returned text, or the transport/provider exception message.  The provider is
an external collaborator, so this is a parameter of the embedding. -/
inductive ProviderOutcome where
  | ok (content : String)
  | exn (msg : String)
deriving DecidableEq, Repr

/-- Embedding of `ChatResponse` from `models/schema.py` (timestamp dropped): `content`
plus an optional `error` (default `None`). -/
structure ChatResponseV2 where
  llm_id : String
  content : String
  error : Option String := none
deriving DecidableEq, Repr

/-- Embedding of `get_chat_completion` from `services/llm_interaction.py`.  The client is
created BEFORE the `try`; inside the `try` the handler picks the request
shape from `get_llm_info(llm_id).reasoning_model` and awaits the provider
(abstracted into `outcome`); `except Exception` converts any raised exception
into a `ChatResponse` with the error field set; `finally` awaits
`client.close()`.

Result: `(response, client_closed)`, or the exception the call propagates.
When `create_async_llm_client` returned `None` (unknown provider), the
attribute access on `None` inside the `try` raises, is caught into an error
response, and then `None.close()` in the `finally` raises `AttributeError`,
which propagates — and no client was ever acquired or closed. -/
def getChatCompletion (llm_id api_provider _prompt : String) (outcome : ProviderOutcome) :
    Except PyError (ChatResponseV2 × Bool) :=
  match createAsyncLLMClient api_provider with
  | none => .error (.attributeError "close")
  | some _ =>
    match outcome with
    | .ok content => .ok ({ llm_id := llm_id, content := content }, true)
    | .exn m =>
      .ok ({ llm_id := llm_id, content := "",
             error := some ("Failed to generate response: " ++ m) }, true)

/-- Modelled from the spec: `LLMSelection` is imported by
`services/llm_interaction.py` from `models/schema.py` but no class of that
name exists there (its definition is missing from the repository).  Its usage
(`selection.llm_id`, `selection.api_provider`) and the spec's batch request
shape (a model id paired with its provider) fix it as this record. -/
structure LLMSelection where
  llm_id : String
  api_provider : String
deriving DecidableEq, Repr

/-- Embedding of `get_batch_chat_completion` from `services/llm_interaction.py`: one
`get_chat_completion` task per selection, gathered concurrently, result list
in task order. -/
def getBatchChatCompletion (llms : List LLMSelection) (prompt : String)
    (outcomes : List ProviderOutcome) : Except PyError (List ChatResponseV2) :=
  (gatherExcept ((llms.zip outcomes).map fun p =>
    getChatCompletion p.1.llm_id p.1.api_provider prompt p.2)).map
      (fun rs => rs.map Prod.fst)

/-- The `prompt` field validation of `ChatRequest`/`BatchChatRequest` in
`models/schema.py`: `Field(min_length=1)` plus the stripping
`validate_prompt` validator (no maximum length in v2). -/
def validatePromptV2 (prompt : String) : Except HTTPError String :=
  if prompt.length < 1 then .error (.validation "String should have at least 1 character")
  else if pyStrip prompt = "" then
    .error (.validation "Prompt cannot be empty or just whitespace")
  else .ok (pyStrip prompt)

/-- The `llm_ids` field validation of `BatchChatRequest` in
`models/schema.py`: only `Field(min_items=1)` — in particular NO duplicate
check and no registry check at the schema level. -/
def validateLlmIdsV2 (ids : List String) : Except HTTPError (List String) :=
  if ids.length < 1 then .error (.validation "List should have at least 1 item")
  else .ok ids

/-- Python `sorted` on strings (lexicographic by code point), by insertion. -/
def insertSorted (x : String) : List String → List String
  | [] => [x]
  | y :: ys => if x < y then x :: y :: ys else y :: insertSorted x ys

/-- Python `sorted(...)` for a list of strings. -/
def pySorted (l : List String) : List String := l.foldr insertSorted []

/-- What a v2 handler invocation produces: a response, an `HTTPException`, or
an exception the handler never catches (FastAPI turns it into a 500). -/
inductive V2Outcome where
  | response (r : ChatResponseV2)
  | httpError (status : Nat) (detail : String)
  | uncaught (e : PyError)
deriving DecidableEq, Repr

/-- Embedding of `POST /api/v2/chat/completion` (`chat_completion` in
`routers/chat_v2.py`): pydantic validation of `ChatRequest` first, then the
registry checks, then the comparison `request.api_provider !=
llm_info.api_provider` — but `ChatRequest` declares no `api_provider` field
(see `chatRequestV2Fields`), so that attribute access raises
`AttributeError`.  The second component records whether
`get_chat_completion` (the backend adapter path) was invoked. -/
def chatCompletionV2 (prompt llm_id : String) (outcome : ProviderOutcome) :
    V2Outcome × Bool :=
  match validatePromptV2 prompt with
  | .error (.validation m) => (.httpError 422 m, false)
  | .error (.http s m) => (.httpError s m, false)
  | .ok p =>
    if ¬ VALID_LLM_IDS.contains llm_id then
      (.httpError 400 ("Invalid LLM ID. Available: " ++
        String.intercalate ", " (pySorted VALID_LLM_IDS)), false)
    else
      match getLlmInfo llm_id with
      | none => (.httpError 404 "LLM not found", false)
      | some _ =>
        if chatRequestV2Fields.contains "api_provider" then
          -- unreachable: would compare the providers and call the adapter
          (match getChatCompletion llm_id "" p outcome with
           | .ok (r, _) => (.response r, true)
           | .error e => (.uncaught e, true))
        else (.uncaught (.attributeError "api_provider"), false)

set_option allowUnsafeReducibility true in
attribute [semireducible] Rat.add

/-! ## Helper lemmas -/

lemma string_eq_empty_of_length_lt_one (s : String) (h : s.length < 1) : s = "" := by
  cases s with
  | mk data =>
    simp [String.length] at h
    simp [h]

/-! ## C1 -/

/-- C1: evaluation of the batch event stream at the failing input.  With
models `[1, 2, 3]`, model 1 drawing `0` (inside the rate-limit band) and
models 2 and 3 drawing `1/2` (no simulated error), the merged stream is a
single generic `batch_error` event whose payload carries NO model id, and
models 2 and 3 contribute no chunks and no terminal events at all —
contradicting the claimed per-model isolation. -/
theorem batch_stream_error_kills_siblings :
    streamBatchLlms [1, 2, 3] "hello"
        [⟨mkRat 0 1, 40⟩, ⟨mkRat 1 2, 80⟩, ⟨mkRat 1 2, 60⟩] defaultMockConfig =
      [SSEEvent.error "batch_error" "Rate limit exceeded. Please try again later." none] := by
  decide

/-! ## C2 -/

/-- C2: evaluation of the batch event stream at the failing input.  For models
`[1, 2]` with identical error draws and no failures, EVERY event of model 1 —
its terminal chunk included — is delivered before the first event of model 2:
the merge drains the per-model streams strictly sequentially instead of
interleaving by arrival. -/
theorem batch_stream_drains_sequentially :
    streamBatchLlms [1, 2] "hi" [⟨mkRat 1 2, 3⟩, ⟨mkRat 1 2, 4⟩] defaultMockConfig =
      [SSEEvent.chunk ⟨1, "T", 1, false, some 1⟩,
       SSEEvent.chunk ⟨2, "h", 1, false, some 1⟩,
       SSEEvent.chunk ⟨3, "i", 1, false, some 1⟩,
       SSEEvent.chunk ⟨4, "", 1, true, some 1⟩,
       SSEEvent.chunk ⟨1, "T", 2, false, some 2⟩,
       SSEEvent.chunk ⟨2, "h", 2, false, some 2⟩,
       SSEEvent.chunk ⟨3, "i", 2, false, some 2⟩,
       SSEEvent.chunk ⟨4, "s", 2, false, some 2⟩,
       SSEEvent.chunk ⟨5, "", 2, true, some 2⟩] := by
  decide

/-! ## C10 -/

/-- C10: every v2 single-completion request whose prompt passes schema
validation and whose `llm_id` is in the registry makes the handler raise
`AttributeError` at the `request.api_provider` comparison (surfaced by FastAPI
as an internal error), because neither `ChatRequest` nor `LLMInfo` declares an
`api_provider` field; the backend adapter (`get_chat_completion`) is never
invoked, so no such request can succeed. -/
theorem v2_completion_always_attribute_error
    (prompt llm_id : String) (outcome : ProviderOutcome)
    (hp : pyStrip prompt ≠ "") (hid : llm_id ∈ VALID_LLM_IDS) :
    ("api_provider" ∉ chatRequestV2Fields ∧ "api_provider" ∉ llmInfoV2Fields) ∧
    chatCompletionV2 prompt llm_id outcome =
      (.uncaught (.attributeError "api_provider"), false) := by
  refine ⟨⟨by decide, by decide⟩, ?_⟩
  have hlen : ¬ prompt.length < 1 := by
    intro h
    exact hp (by rw [string_eq_empty_of_length_lt_one prompt h]; rfl)
  have h1 : validatePromptV2 prompt = .ok (pyStrip prompt) := by
    unfold validatePromptV2
    rw [if_neg hlen, if_neg hp]
  have hcontains : VALID_LLM_IDS.contains llm_id = true := by
    simp [List.elem_iff, hid]
  have hfind : (getLlmInfo llm_id).isSome := by
    unfold getLlmInfo
    rw [List.find?_isSome]
    obtain ⟨l, hl, hl2⟩ := List.mem_map.mp hid
    exact ⟨l, hl, by simp [hl2]⟩
  obtain ⟨info, hinfo⟩ := Option.isSome_iff_exists.mp hfind
  unfold chatCompletionV2
  rw [h1]
  simp only [hcontains, hinfo]
  norm_num
  intro hmem
  exact absurd hmem (by decide)

/-- Witness for C10 at a concrete request. -/
theorem v2_completion_always_attribute_error_witness :
    (pyStrip "hello" ≠ "" ∧ "gpt-4.1" ∈ VALID_LLM_IDS) ∧
    chatCompletionV2 "hello" "gpt-4.1" (.ok "some text") =
      (.uncaught (.attributeError "api_provider"), false) :=
  ⟨⟨by decide, by decide⟩,
    (v2_completion_always_attribute_error "hello" "gpt-4.1" (.ok "some text")
      (by decide) (by decide)).2⟩

/-! ## C9 -/

/-- C9 counterexample: the v2 batch entry point
(`/api/v2/chat/completion/batch`) does NOT reject duplicate model ids at
validation — `BatchChatRequest` in `models/schema.py` has no duplicate check,
so the duplicate selection `["gpt-4.1", "gpt-4.1"]` (with a valid prompt)
passes schema validation.  Hence the claim fails for "every batch entry point
of the HTTP surface". -/
theorem v2_batch_accepts_duplicate_ids :
    validatePromptV2 "hello" = .ok "hello" ∧
    validateLlmIdsV2 ["gpt-4.1", "gpt-4.1"] = .ok ["gpt-4.1", "gpt-4.1"] := by
  decide

/-- C9 amended: on the v1 batch entry points (`/api/chat/completion/batch`
and `/api/chat/stream/batch`), a batch request whose `llm_ids` repeats a
model id is rejected by the `BatchChatRequest` validator with the
duplicate-ids error before the handler runs, so no backend work is dispatched
for any model; the v2 batch schema performs no duplicate check. -/
theorem v1_batch_rejects_duplicate_ids
    (prompt p : String) (ids : List Int) (draws : List Draw) (cfg : MockLLMConfig)
    (hp : validatePromptV1 prompt = .ok p)
    (hrange : ∀ i ∈ ids, 1 ≤ i ∧ i ≤ 5)
    (hlen : ids.length ≤ 5)
    (hdup : ¬ ids.Nodup) :
    batchChatCompletionV1 prompt ids draws cfg =
      (.error (.validation "Duplicate LLM IDs are not allowed"), []) ∧
    streamBatchChatV1 prompt ids draws cfg =
      (.error (.validation "Duplicate LLM IDs are not allowed"), []) := by
  have hne : ids ≠ [] := by
    intro h
    exact hdup (h ▸ List.nodup_nil)
  have hids : validateLlmIdsV1 ids =
      .error (.validation "Duplicate LLM IDs are not allowed") := by
    unfold validateLlmIdsV1
    have h1 : ¬ ids.length < 1 := by
      simp only [Nat.not_lt, Nat.one_le_iff_ne_zero]
      simpa using hne
    have h2 : ¬ ids.length > 5 := by omega
    have h3 : ids.isEmpty = false := by simpa using hne
    have h4 : ids.find? (fun i => decide (i < 1) || decide (5 < i)) = none := by
      rw [List.find?_eq_none]
      intro x hx
      obtain ⟨hx1, hx2⟩ := hrange x hx
      simp
      omega
    have h5 : ids.dedup.length ≠ ids.length := by
      intro h
      exact hdup ((List.dedup_sublist ids).eq_of_length h ▸ ids.nodup_dedup)
    rw [if_neg h1, if_neg h2, h3, h4]
    simp only [Bool.false_eq_true, if_false]
    rw [if_pos h5]
  constructor
  · unfold batchChatCompletionV1
    rw [hp, hids]
  · unfold streamBatchChatV1
    rw [hp, hids]

/-- Witness for the amended C9 at a concrete duplicate request. -/
theorem v1_batch_rejects_duplicate_ids_witness :
    (validatePromptV1 "hello" = .ok "hello" ∧ (∀ i ∈ [(1 : Int), 1], 1 ≤ i ∧ i ≤ 5) ∧
      [(1 : Int), 1].length ≤ 5 ∧ ¬ [(1 : Int), 1].Nodup) ∧
    batchChatCompletionV1 "hello" [1, 1] [] defaultMockConfig =
      (.error (.validation "Duplicate LLM IDs are not allowed"), []) ∧
    streamBatchChatV1 "hello" [1, 1] [] defaultMockConfig =
      (.error (.validation "Duplicate LLM IDs are not allowed"), []) :=
  ⟨⟨by decide, by decide, by decide, by decide⟩,
    v1_batch_rejects_duplicate_ids "hello" "hello" [1, 1] [] defaultMockConfig
      (by decide) (by decide) (by decide) (by decide)⟩

/-! ## C3 -/

lemma validatePromptV1_error_of_strip_empty (prompt : String)
    (hps : pyStrip prompt = "") : ∃ e, validatePromptV1 prompt = .error e := by
  unfold validatePromptV1
  by_cases h1 : prompt.length < 1
  · rw [if_pos h1]; exact ⟨_, rfl⟩
  rw [if_neg h1]
  by_cases h2 : prompt.length > 1000
  · rw [if_pos h2]; exact ⟨_, rfl⟩
  rw [if_neg h2, if_pos hps]; exact ⟨_, rfl⟩

lemma validateLlmIdV1_error_of_out_of_range (llm_id : Int)
    (h : llm_id < 1 ∨ 5 < llm_id) : ∃ e, validateLlmIdV1 llm_id = .error e := by
  unfold validateLlmIdV1
  rcases h with h | h
  · rw [if_pos h]; exact ⟨_, rfl⟩
  · by_cases h1 : llm_id < 1
    · rw [if_pos h1]; exact ⟨_, rfl⟩
    · rw [if_neg h1, if_pos h]; exact ⟨_, rfl⟩

lemma validateLlmIdsV1_error_of_unknown (ids : List Int)
    (h : ∃ i ∈ ids, i < 1 ∨ 5 < i) : ∃ e, validateLlmIdsV1 ids = .error e := by
  unfold validateLlmIdsV1
  by_cases h1 : ids.length < 1
  · rw [if_pos h1]; exact ⟨_, rfl⟩
  rw [if_neg h1]
  by_cases h2 : ids.length > 5
  · rw [if_pos h2]; exact ⟨_, rfl⟩
  rw [if_neg h2]
  have h3 : ids.isEmpty = false := by
    cases ids with
    | nil => simp at h1
    | cons a l => rfl
  rw [h3]
  simp only [Bool.false_eq_true, if_false]
  cases hf : ids.find? (fun i => decide (i < 1) || decide (5 < i)) with
  | some i => exact ⟨_, rfl⟩
  | none =>
    exfalso
    obtain ⟨i, hi, hout⟩ := h
    have := List.find?_eq_none.mp hf i hi
    simp at this
    omega

/-- C3: a request-shape error — an empty or whitespace-only prompt, an
out-of-registry model id on the single route, or any out-of-registry id among
a batch's ids (the registry of the mock backend being models 1..5) — is
caught by request validation before the handler runs, the whole request fails
with an error, and no model's simulated backend work is dispatched (the
dispatched-model list of every endpoint is empty). -/
theorem shape_errors_block_dispatch
    (prompt : String) (llm_id : Int) (llm_ids : List Int) (d : Draw)
    (draws : List Draw) :
    (pyStrip prompt = "" ∨ llm_id < 1 ∨ 5 < llm_id →
      (∃ e, chatCompletionV1 prompt llm_id d defaultMockConfig = (.error e, [])) ∧
      (∃ e, streamChatV1 prompt llm_id d defaultMockConfig = (.error e, []))) ∧
    (pyStrip prompt = "" ∨ (∃ i ∈ llm_ids, i < 1 ∨ 5 < i) →
      (∃ e, batchChatCompletionV1 prompt llm_ids draws defaultMockConfig = (.error e, [])) ∧
      (∃ e, streamBatchChatV1 prompt llm_ids draws defaultMockConfig = (.error e, []))) := by
  constructor
  · intro h
    cases hv : validatePromptV1 prompt with
    | error e =>
      exact ⟨⟨e, by unfold chatCompletionV1; rw [hv]⟩,
             ⟨e, by unfold streamChatV1; rw [hv]⟩⟩
    | ok p =>
      have hid : llm_id < 1 ∨ 5 < llm_id := by
        rcases h with hps | hid
        · obtain ⟨e, he⟩ := validatePromptV1_error_of_strip_empty prompt hps
          rw [hv] at he
          cases he
        · exact hid
      obtain ⟨e, he⟩ := validateLlmIdV1_error_of_out_of_range llm_id hid
      exact ⟨⟨e, by unfold chatCompletionV1; rw [hv, he]⟩,
             ⟨e, by unfold streamChatV1; rw [hv, he]⟩⟩
  · intro h
    cases hv : validatePromptV1 prompt with
    | error e =>
      exact ⟨⟨e, by unfold batchChatCompletionV1; rw [hv]⟩,
             ⟨e, by unfold streamBatchChatV1; rw [hv]⟩⟩
    | ok p =>
      have hid : ∃ i ∈ llm_ids, i < 1 ∨ 5 < i := by
        rcases h with hps | hid
        · obtain ⟨e, he⟩ := validatePromptV1_error_of_strip_empty prompt hps
          rw [hv] at he
          cases he
        · exact hid
      obtain ⟨e, he⟩ := validateLlmIdsV1_error_of_unknown llm_ids hid
      exact ⟨⟨e, by unfold batchChatCompletionV1; rw [hv, he]⟩,
             ⟨e, by unfold streamBatchChatV1; rw [hv, he]⟩⟩

/-- Witness for C3: model id 99 is not in the registry; neither the single
nor the batch request dispatches any backend work. -/
theorem shape_errors_block_dispatch_witness :
    ((99 : Int) < 1 ∨ 5 < (99 : Int)) ∧
    ((∃ e, chatCompletionV1 "hi" 99 ⟨mkRat 1 2, 40⟩ defaultMockConfig = (.error e, [])) ∧
     (∃ e, streamChatV1 "hi" 99 ⟨mkRat 1 2, 40⟩ defaultMockConfig = (.error e, []))) ∧
    (∃ i ∈ [(1 : Int), 99], i < 1 ∨ 5 < i) ∧
    ((∃ e, batchChatCompletionV1 "hi" [1, 99] [] defaultMockConfig = (.error e, [])) ∧
     (∃ e, streamBatchChatV1 "hi" [1, 99] [] defaultMockConfig = (.error e, []))) :=
  ⟨by decide,
   (shape_errors_block_dispatch "hi" 99 [1, 99] ⟨mkRat 1 2, 40⟩ []).1 (Or.inr (by decide)),
   ⟨99, by decide, by decide⟩,
   (shape_errors_block_dispatch "hi" 99 [1, 99] ⟨mkRat 1 2, 40⟩ []).2
     (Or.inr ⟨99, by decide, by decide⟩)⟩

/-! ## C6 -/

/-- C6: one uniform draw `rand` decides the simulated outcome against three
mutually exclusive cumulative bands — `[0, p_rl)` rate-limits, `[p_rl, p_rl +
p_to)` times out, `[p_rl + p_to, p_rl + p_to + p_svc)` is service-unavailable,
and at or beyond the sum no simulated error occurs; such a failure happens
before any chunk or content is produced (both the stream and the completion
raise with an empty output); with all three probabilities `0` a nonnegative
draw never fails. -/
theorem error_draw_bands
    (cfg : MockLLMConfig) (rand : ℚ)
    (_hrl : 0 ≤ cfg.rate_limit) (hto : 0 ≤ cfg.timeout) (hse : 0 ≤ cfg.service_error) :
    ((∃ m, simulateErrors cfg rand = some (.rateLimitError m)) ↔
      rand < cfg.rate_limit) ∧
    ((∃ m, simulateErrors cfg rand = some (.llmTimeoutError m)) ↔
      cfg.rate_limit ≤ rand ∧ rand < cfg.rate_limit + cfg.timeout) ∧
    ((∃ m, simulateErrors cfg rand = some (.llmServiceError m)) ↔
      cfg.rate_limit + cfg.timeout ≤ rand ∧
        rand < cfg.rate_limit + cfg.timeout + cfg.service_error) ∧
    (simulateErrors cfg rand = none ↔
      cfg.rate_limit + cfg.timeout + cfg.service_error ≤ rand) ∧
    (∀ llm_id prompt target e, validateMockInputs cfg llm_id prompt = none →
      simulateErrors cfg rand = some e →
      mockLlmStream llm_id prompt rand target cfg = .error e ∧
      mockLlmCompletion llm_id prompt rand target cfg = .error e) ∧
    (cfg.rate_limit = 0 → cfg.timeout = 0 → cfg.service_error = 0 → 0 ≤ rand →
      simulateErrors cfg rand = none) := by
  refine ⟨?_, ?_, ?_, ?_, ?_, ?_⟩
  · unfold simulateErrors
    by_cases h1 : rand < cfg.rate_limit
    · simp [h1]
    · rw [if_neg h1]
      constructor
      · rintro ⟨m, hm⟩
        split at hm
        · cases hm
        · split at hm
          · cases hm
          · cases hm
      · intro hc
        exact absurd hc h1
  · unfold simulateErrors
    by_cases h1 : rand < cfg.rate_limit
    · rw [if_pos h1]
      constructor
      · rintro ⟨m, hm⟩
        cases hm
      · rintro ⟨hle, _⟩
        exact absurd h1 (not_lt.mpr hle)
    · rw [if_neg h1]
      by_cases h2 : rand < cfg.rate_limit + cfg.timeout
      · rw [if_pos h2]
        exact ⟨fun _ => ⟨not_lt.mp h1, h2⟩, fun _ => ⟨_, rfl⟩⟩
      · rw [if_neg h2]
        constructor
        · rintro ⟨m, hm⟩
          split at hm
          · cases hm
          · cases hm
        · rintro ⟨_, hlt⟩
          exact absurd hlt h2
  · unfold simulateErrors
    by_cases h1 : rand < cfg.rate_limit
    · rw [if_pos h1]
      constructor
      · rintro ⟨m, hm⟩
        cases hm
      · rintro ⟨hle, _⟩
        exact absurd hle (not_le.mpr (by linarith))
    · rw [if_neg h1]
      by_cases h2 : rand < cfg.rate_limit + cfg.timeout
      · rw [if_pos h2]
        constructor
        · rintro ⟨m, hm⟩
          cases hm
        · rintro ⟨hle, _⟩
          exact absurd hle (not_le.mpr h2)
      · rw [if_neg h2]
        by_cases h3 : rand < cfg.rate_limit + cfg.timeout + cfg.service_error
        · rw [if_pos h3]
          exact ⟨fun _ => ⟨not_lt.mp h2, h3⟩, fun _ => ⟨_, rfl⟩⟩
        · rw [if_neg h3]
          constructor
          · rintro ⟨m, hm⟩
            cases hm
          · rintro ⟨_, hlt⟩
            exact absurd hlt h3
  · unfold simulateErrors
    by_cases h1 : rand < cfg.rate_limit
    · rw [if_pos h1]
      constructor
      · intro hm
        cases hm
      · intro hle
        exact absurd h1 (not_lt.mpr (by linarith))
    · rw [if_neg h1]
      by_cases h2 : rand < cfg.rate_limit + cfg.timeout
      · rw [if_pos h2]
        constructor
        · intro hm
          cases hm
        · intro hle
          exact absurd h2 (not_lt.mpr (by linarith))
      · rw [if_neg h2]
        by_cases h3 : rand < cfg.rate_limit + cfg.timeout + cfg.service_error
        · rw [if_pos h3]
          constructor
          · intro hm
            cases hm
          · intro hle
            exact absurd h3 (not_lt.mpr hle)
        · rw [if_neg h3]
          exact ⟨fun _ => not_lt.mp h3, fun _ => rfl⟩
  · intro llm_id prompt target e hv hs
    constructor
    · unfold mockLlmStream
      rw [hv, hs]
    · unfold mockLlmCompletion
      rw [hv, hs]
  · intro hz1 hz2 hz3 hr
    unfold simulateErrors
    rw [hz1, hz2, hz3]
    have h0 : ¬ rand < 0 := not_lt.mpr hr
    simp [h0]

/-- Witness for C6 at the default configuration and the draw `1/2`. -/
theorem error_draw_bands_witness :
    ((0 : ℚ) ≤ defaultMockConfig.rate_limit ∧ (0 : ℚ) ≤ defaultMockConfig.timeout ∧
      (0 : ℚ) ≤ defaultMockConfig.service_error) ∧
    (simulateErrors defaultMockConfig (mkRat 1 2) = none ↔
      defaultMockConfig.rate_limit + defaultMockConfig.timeout +
        defaultMockConfig.service_error ≤ mkRat 1 2) :=
  ⟨⟨by decide, by decide, by decide⟩,
    (error_draw_bands defaultMockConfig (mkRat 1 2)
      (by decide) (by decide) (by decide)).2.2.2.1⟩

/-! ## C5 -/

lemma string_mk_cons_ne_empty (c : Char) (l : List Char) : String.mk (c :: l) ≠ "" := by
  intro h
  have := congrArg String.data h
  simp at this

lemma charChunks_length (llm_id : Int) (cs : List Char) (k : Nat) :
    (charChunks llm_id cs k).length = cs.length := by
  induction cs generalizing k with
  | nil => rfl
  | cons c rest ih => simp [charChunks, ih]

lemma mem_charChunks (llm_id : Int) (cs : List Char) (k : Nat) (c : Chunk)
    (h : c ∈ charChunks llm_id cs k) : c.is_complete = false ∧ c.text ≠ "" := by
  induction cs generalizing k with
  | nil => simp [charChunks] at h
  | cons a rest ih =>
    rw [charChunks] at h
    rcases List.mem_cons.mp h with h | h
    · subst h
      exact ⟨rfl, string_mk_cons_ne_empty a []⟩
    · exact ih (k + 1) h

lemma charChunks_getElem (llm_id : Int) (cs : List Char) (k i : Nat)
    (hi : i < (charChunks llm_id cs k).length) :
    ((charChunks llm_id cs k)[i]).chunk_id = k + i + 1 ∧
    ((charChunks llm_id cs k)[i]).is_complete = false ∧
    ((charChunks llm_id cs k)[i]).text ≠ "" := by
  induction cs generalizing k i with
  | nil => simp [charChunks] at hi
  | cons a rest ih =>
    cases i with
    | zero =>
      refine ⟨rfl, rfl, ?_⟩
      exact string_mk_cons_ne_empty a []
    | succ n =>
      have hn : n < (charChunks llm_id rest (k + 1)).length := by
        rw [charChunks_length] at hi ⊢
        simpa using Nat.lt_of_succ_lt_succ hi
      have := ih (k + 1) n hn
      refine ⟨?_, this.2.1, this.2.2⟩
      rw [show ((charChunks llm_id (a :: rest) k)[n + 1]).chunk_id =
        ((charChunks llm_id rest (k + 1))[n]).chunk_id from rfl, this.1]
      omega

/-- C5: when a single-model mock stream produces output (returns `ok` rather
than raising), its chunk sequence has `chunk_id` running `1, 2, ...` in
order, exactly one chunk has the completion marker, that chunk is the last
one, and a chunk's text is empty exactly when it is that terminal chunk. -/
theorem stream_chunk_invariants (llm_id : Int) (prompt : String) (rand : ℚ)
    (target : Nat) (cfg : MockLLMConfig) (cs : List Chunk)
    (h : mockLlmStream llm_id prompt rand target cfg = .ok cs) :
    (∀ i (hi : i < cs.length), cs[i].chunk_id = i + 1) ∧
    cs.countP (fun c => c.is_complete) = 1 ∧
    (cs ≠ [] ∧ ∃ c, cs.getLast? = some c ∧ c.is_complete = true) ∧
    (∀ i (hi : i < cs.length), (cs[i].text = "" ↔ cs[i].is_complete = true)) := by
  unfold mockLlmStream at h
  split at h
  · cases h
  split at h
  · cases h
  split at h
  · cases h
  rename_i text hgen
  cases h
  have hlen : (charChunks llm_id text.toList 0).length = text.toList.length :=
    charChunks_length _ _ _
  refine ⟨?_, ?_, ?_, ?_⟩
  · intro i hi
    rw [List.length_append, hlen, List.length_singleton] at hi
    rcases Nat.lt_or_ge i text.toList.length with hin | hin
    · have hi' : i < (charChunks llm_id text.toList 0).length := by omega
      rw [List.getElem_append_left hi',
        (charChunks_getElem llm_id text.toList 0 i hi').1]
      omega
    · have hieq : i = text.toList.length := by omega
      subst hieq
      rw [List.getElem_append_right (by omega)]
      simp [hlen]
  · rw [List.countP_append]
    have h0 : (charChunks llm_id text.toList 0).countP (fun c => c.is_complete) = 0 := by
      rw [List.countP_eq_zero]
      intro c hc
      simp [(mem_charChunks llm_id text.toList 0 c hc).1]
    rw [h0]
    rfl
  · refine ⟨by simp, ?_⟩
    exact ⟨_, List.getLast?_concat _, rfl⟩
  · intro i hi
    rw [List.length_append, hlen, List.length_singleton] at hi
    rcases Nat.lt_or_ge i text.toList.length with hin | hin
    · have hi' : i < (charChunks llm_id text.toList 0).length := by omega
      rw [List.getElem_append_left hi']
      have hfacts := charChunks_getElem llm_id text.toList 0 i hi'
      constructor
      · intro ht
        exact absurd ht hfacts.2.2
      · intro hc
        rw [hfacts.2.1] at hc
        cases hc
    · have hieq : i = text.toList.length := by omega
      subst hieq
      rw [List.getElem_append_right (by omega)]
      simp [hlen]

/-- Witness for C5: the concrete stream of model 1 on prompt `"hi"`, target
length 5, draw `1/2`. -/
theorem stream_chunk_invariants_witness :
    mockLlmStream 1 "hi" (mkRat 1 2) 5 defaultMockConfig = .ok
      [⟨1, "T", 1, false, none⟩, ⟨2, "h", 1, false, none⟩, ⟨3, "i", 1, false, none⟩,
       ⟨4, "s", 1, false, none⟩, ⟨5, " ", 1, false, none⟩, ⟨6, "", 1, true, none⟩] ∧
    (∀ i (hi : i < ([⟨1, "T", 1, false, none⟩, ⟨2, "h", 1, false, none⟩,
        ⟨3, "i", 1, false, none⟩, ⟨4, "s", 1, false, none⟩, ⟨5, " ", 1, false, none⟩,
        ⟨6, "", 1, true, none⟩] : List Chunk).length),
      ([⟨1, "T", 1, false, none⟩, ⟨2, "h", 1, false, none⟩, ⟨3, "i", 1, false, none⟩,
        ⟨4, "s", 1, false, none⟩, ⟨5, " ", 1, false, none⟩,
        ⟨6, "", 1, true, none⟩] : List Chunk)[i].chunk_id = i + 1) :=
  ⟨by decide,
    (stream_chunk_invariants 1 "hi" (mkRat 1 2) 5 defaultMockConfig
      [⟨1, "T", 1, false, none⟩, ⟨2, "h", 1, false, none⟩, ⟨3, "i", 1, false, none⟩,
       ⟨4, "s", 1, false, none⟩, ⟨5, " ", 1, false, none⟩, ⟨6, "", 1, true, none⟩]
      (by decide)).1⟩

/-! ## C8 -/

/-- C8: for a live-provider completion call that acquired a client (the two
known providers), any provider/transport exception is caught and turned into
a response whose error field describes the failure — the call itself never
raises — and the `finally` block closes the acquired client on the success
and the failure path alike. -/
theorem provider_errors_captured_and_client_closed
    (llm_id api_provider prompt : String) (outcome : ProviderOutcome)
    (c : AsyncLLMClient) (h : createAsyncLLMClient api_provider = some c) :
    ∃ r, getChatCompletion llm_id api_provider prompt outcome = .ok (r, true) ∧
      (∀ m, outcome = .exn m →
        r.error = some ("Failed to generate response: " ++ m) ∧ r.llm_id = llm_id) := by
  unfold getChatCompletion
  rw [h]
  cases outcome with
  | ok content =>
    refine ⟨_, rfl, ?_⟩
    intro m hm
    cases hm
  | exn m =>
    refine ⟨_, rfl, ?_⟩
    intro m' hm'
    cases hm'
    exact ⟨rfl, rfl⟩

/-- Witness for C8: an OpenRouter call whose provider raises `boom`. -/
theorem provider_errors_captured_and_client_closed_witness :
    createAsyncLLMClient "OpenRouter" = some ⟨"OpenRouter"⟩ ∧
    ∃ r, getChatCompletion "m1" "OpenRouter" "hi" (.exn "boom") = .ok (r, true) ∧
      (∀ m, ProviderOutcome.exn "boom" = .exn m →
        r.error = some ("Failed to generate response: " ++ m) ∧ r.llm_id = "m1") :=
  ⟨by decide,
    provider_errors_captured_and_client_closed "m1" "OpenRouter" "hi" (.exn "boom")
      ⟨"OpenRouter"⟩ (by decide)⟩

/-! ## C7 -/

lemma length_pos_of_formatTemplate (key : String) (llm_id : Int) (prompt b : String)
    (h : formatTemplate key llm_id prompt = some b) : 0 < b.length := by
  unfold formatTemplate at h
  split_ifs at h
  · cases h
    rw [String.length_append, String.length_append]
    have h1 : 0 < ("Hello! I\x27m LLM " : String).length := by decide
    omega
  · cases h
    rw [String.length_append, String.length_append]
    have h1 : 0 < ("As LLM " : String).length := by decide
    omega
  · cases h
    rw [String.length_append, String.length_append]
    have h1 : 0 < ("LLM " : String).length := by decide
    omega
  · cases h
    rw [String.length_append, String.length_append, String.length_append]
    have h1 : 0 < ("This is a response from LLM " : String).length := by decide
    omega

lemma adjustLength_ne_empty (base : String) (llm_id : Int) (target : Nat)
    (hb : 0 < base.length) (ht : 1 ≤ target) : adjustLength base llm_id target ≠ "" := by
  unfold adjustLength
  have hempty : ("" : String).length = 0 := rfl
  split_ifs with h1 h2
  · intro he
    have hl := congrArg String.length he
    rw [String.length_append, hempty] at hl
    omega
  · intro he
    have hl := congrArg String.length he
    rw [show (String.mk (base.toList.take target)).length =
        (base.toList.take target).length from rfl, List.length_take, hempty] at hl
    have hbl : base.toList.length = base.length := rfl
    omega
  · intro he
    rw [he, hempty] at hb
    exact absurd hb (by omega)

lemma generateResponse_ok_ne_empty (llm_id : Int) (prompt : String) (target : Nat)
    (text : String) (h : generateResponse llm_id prompt target = .ok text)
    (ht : 1 ≤ target) : text ≠ "" := by
  unfold generateResponse at h
  split at h
  · cases h
  · rename_i base hbase
    cases h
    exact adjustLength_ne_empty base llm_id target
      (length_pos_of_formatTemplate _ llm_id prompt base hbase) ht

/-- C7: a mock completion that returns a result carries non-empty content
(the result record has no error field at all — failures raise instead); a
live completion never populates content and error with meaningful values at
the same time: on provider success the error field is `None` and the content
is the provider's text, on provider failure the content is `""` and the error
field describes the failure. -/
theorem completion_content_xor_error :
    (∀ (llm_id : Int) (prompt : String) (rand : ℚ) (target : Nat)
        (cfg : MockLLMConfig) (r : MockCompletion), 1 ≤ target →
      mockLlmCompletion llm_id prompt rand target cfg = .ok r → r.content ≠ "") ∧
    (∀ (llm_id api_provider prompt : String) (outcome : ProviderOutcome)
        (c : AsyncLLMClient),
      createAsyncLLMClient api_provider = some c →
      ∃ r, getChatCompletion llm_id api_provider prompt outcome = .ok (r, true) ∧
        (∀ content, outcome = .ok content → r.content = content ∧ r.error = none) ∧
        (∀ m, outcome = .exn m → r.content = "" ∧
          r.error = some ("Failed to generate response: " ++ m))) := by
  constructor
  · intro llm_id prompt rand target cfg r ht h
    unfold mockLlmCompletion at h
    split at h
    · cases h
    split at h
    · cases h
    split at h
    · cases h
    rename_i text hgen
    cases h
    exact generateResponse_ok_ne_empty llm_id prompt target text hgen ht
  · intro llm_id ap prompt outcome c h
    unfold getChatCompletion
    rw [h]
    cases outcome with
    | ok content =>
      refine ⟨_, rfl, ?_, ?_⟩
      · intro content' hc
        cases hc
        exact ⟨rfl, rfl⟩
      · intro m hm
        cases hm
    | exn m =>
      refine ⟨_, rfl, ?_, ?_⟩
      · intro content' hc
        cases hc
      · intro m' hm'
        cases hm'
        exact ⟨rfl, rfl⟩

/-- Witness for C7: mock model 1 on `"hello"` (target 10, draw `1/2`) and a
live Azure call whose provider returns `"hi there"`. -/
theorem completion_content_xor_error_witness :
    ((1 : Nat) ≤ 10 ∧
      mockLlmCompletion 1 "hello" (mkRat 1 2) 10 defaultMockConfig =
        .ok ⟨1, "hello", "Hello! I\x27m"⟩ ∧
      (MockCompletion.content ⟨1, "hello", "Hello! I\x27m"⟩ ≠ "")) ∧
    (createAsyncLLMClient "Azure OpenAI" = some ⟨"Azure OpenAI"⟩ ∧
      ∃ r, getChatCompletion "gpt-4.1" "Azure OpenAI" "hello" (.ok "hi there") =
          .ok (r, true) ∧
        (∀ content, ProviderOutcome.ok "hi there" = .ok content →
          r.content = content ∧ r.error = none) ∧
        (∀ m, ProviderOutcome.ok "hi there" = .exn m → r.content = "" ∧
          r.error = some ("Failed to generate response: " ++ m))) :=
  ⟨⟨by decide, by decide,
    completion_content_xor_error.1 1 "hello" (mkRat 1 2) 10 defaultMockConfig
      ⟨1, "hello", "Hello! I\x27m"⟩ (by decide) (by decide)⟩,
   ⟨by decide,
    completion_content_xor_error.2 "gpt-4.1" "Azure OpenAI" "hello" (.ok "hi there")
      ⟨"Azure OpenAI"⟩ (by decide)⟩⟩

/-! ## C4 -/

/-- C4 counterexample: a mock batch over `[1]` whose single model draws `0`
(inside the rate-limit band) returns no response list at all — the gathered
exception fails the whole batch, and the HTTP handler surfaces a 500 — so the
per-model failure is not captured inside a list entry. -/
theorem batch_completion_drops_failed_batch :
    batchMockLlmCompletion [1] "hi" [⟨mkRat 0 1, 40⟩] defaultMockConfig =
      .error (.rateLimitError "Rate limit exceeded. Please try again later.") ∧
    batchChatCompletionV1 "hi" [1] [⟨mkRat 0 1, 40⟩] defaultMockConfig =
      (.error (.http 500 "Internal server error"), [1]) := by
  decide

lemma gatherExcept_all_ok {α : Type} (rs : List (Except PyError α))
    (h : ∀ r ∈ rs, ∃ a, r = .ok a) :
    ∃ as, gatherExcept rs = .ok as ∧ as.length = rs.length ∧
      ∀ i (hi : i < rs.length) (hi' : i < as.length), rs[i] = .ok as[i] := by
  induction rs with
  | nil =>
    exact ⟨[], rfl, rfl, fun i hi => by simp at hi⟩
  | cons r rest ih =>
    obtain ⟨a, rfl⟩ : ∃ a, r = .ok a := h _ (List.mem_cons_self _ _)
    obtain ⟨as, h1, h2, h3⟩ := ih (fun r hr => h r (List.mem_cons_of_mem _ hr))
    refine ⟨a :: as, ?_, by simp [h2], ?_⟩
    · unfold gatherExcept
      rw [h1]
      rfl
    · intro i hi hi'
      cases i with
      | zero => rfl
      | succ n =>
        exact h3 n (by simpa using hi) (by simpa using hi')

lemma mockLlmCompletion_ok_llm_id (llm_id : Int) (prompt : String) (rand : ℚ)
    (target : Nat) (cfg : MockLLMConfig) (r : MockCompletion)
    (h : mockLlmCompletion llm_id prompt rand target cfg = .ok r) :
    r.llm_id = llm_id := by
  unfold mockLlmCompletion at h
  split at h
  · cases h
  split at h
  · cases h
  split at h
  · cases h
  cases h
  rfl

lemma getChatCompletion_ok_inv (llm_id ap prompt : String) (outcome : ProviderOutcome)
    (pr : ChatResponseV2 × Bool)
    (h : getChatCompletion llm_id ap prompt outcome = .ok pr) :
    pr.1.llm_id = llm_id ∧
      (∀ m, outcome = .exn m →
        pr.1.error = some ("Failed to generate response: " ++ m)) := by
  unfold getChatCompletion at h
  split at h
  · cases h
  · cases outcome with
    | ok content =>
      cases h
      refine ⟨rfl, ?_⟩
      intro m hm
      cases hm
    | exn m =>
      cases h
      refine ⟨rfl, ?_⟩
      intro m' hm'
      cases hm'
      rfl

/-- C4 amended: when every per-model mock call returns a result (no simulated
error), the mock batch returns exactly one entry per requested model, in
request order; the live-provider batch (with a client acquirable for each
selection) always returns exactly one entry per selection in order, with a
per-model provider failure captured inside the corresponding entry.  (The
unamended claim fails on the mock path: a simulated per-model failure aborts
the whole mock batch — see the counterexample.) -/
theorem batch_completion_order_and_capture :
    (∀ (llm_ids : List Int) (prompt : String) (draws : List Draw) (cfg : MockLLMConfig),
      llm_ids ≠ [] → llm_ids.length = draws.length →
      (∀ p ∈ llm_ids.zip draws,
        ∃ r, mockLlmCompletion p.1 prompt p.2.rand p.2.target cfg = .ok r) →
      ∃ rs, batchMockLlmCompletion llm_ids prompt draws cfg = .ok rs ∧
        rs.length = llm_ids.length ∧
        ∀ i (hi : i < rs.length) (hi' : i < llm_ids.length),
          rs[i].llm_id = llm_ids[i]) ∧
    (∀ (llms : List LLMSelection) (prompt : String) (outcomes : List ProviderOutcome),
      llms.length = outcomes.length →
      (∀ s ∈ llms, ∃ c, createAsyncLLMClient s.api_provider = some c) →
      ∃ rs, getBatchChatCompletion llms prompt outcomes = .ok rs ∧
        rs.length = llms.length ∧
        (∀ i (hi : i < rs.length) (hi' : i < llms.length),
          rs[i].llm_id = llms[i].llm_id) ∧
        (∀ i (hi : i < rs.length) (hi' : i < outcomes.length), ∀ m,
          outcomes[i] = .exn m →
            rs[i].error = some ("Failed to generate response: " ++ m))) := by
  constructor
  · intro ids prompt draws cfg hne hlen hok
    have hzip : (ids.zip draws).length = ids.length := by
      rw [List.length_zip]
      omega
    obtain ⟨as, h1, h2, h3⟩ := gatherExcept_all_ok
      ((ids.zip draws).map fun p => mockLlmCompletion p.1 prompt p.2.rand p.2.target cfg)
      (by
        intro r hr
        obtain ⟨p, hp, rfl⟩ := List.mem_map.mp hr
        exact hok p hp)
    rw [List.length_map, hzip] at h2
    refine ⟨as, ?_, h2, ?_⟩
    · unfold batchMockLlmCompletion
      rw [if_neg (by simpa using hne)]
      exact h1
    · intro i hi hi'
      have hmap : i < ((ids.zip draws).map fun p =>
          mockLlmCompletion p.1 prompt p.2.rand p.2.target cfg).length := by
        rw [List.length_map, hzip]
        omega
      have hthis := h3 i hmap hi
      rw [List.getElem_map, List.getElem_zip] at hthis
      exact mockLlmCompletion_ok_llm_id _ _ _ _ _ _ hthis
  · intro llms prompt outcomes hlen hcl
    have hzip : (llms.zip outcomes).length = llms.length := by
      rw [List.length_zip]
      omega
    obtain ⟨as, h1, h2, h3⟩ := gatherExcept_all_ok
      ((llms.zip outcomes).map fun p =>
        getChatCompletion p.1.llm_id p.1.api_provider prompt p.2)
      (by
        intro r hr
        obtain ⟨p, hp, rfl⟩ := List.mem_map.mp hr
        obtain ⟨c, hc⟩ := hcl p.1 (List.of_mem_zip hp).1
        unfold getChatCompletion
        rw [hc]
        cases p.2 with
        | ok content => exact ⟨_, rfl⟩
        | exn m => exact ⟨_, rfl⟩)
    rw [List.length_map, hzip] at h2
    refine ⟨as.map Prod.fst, ?_, by rw [List.length_map, h2], ?_, ?_⟩
    · unfold getBatchChatCompletion
      rw [h1]
      rfl
    · intro i hi hi'
      rw [List.length_map] at hi
      have hmap : i < ((llms.zip outcomes).map fun p =>
          getChatCompletion p.1.llm_id p.1.api_provider prompt p.2).length := by
        rw [List.length_map, hzip]
        omega
      have hthis := h3 i hmap hi
      rw [List.getElem_map, List.getElem_zip] at hthis
      rw [List.getElem_map]
      exact (getChatCompletion_ok_inv _ _ _ _ _ hthis).1
    · intro i hi hi' m hm
      rw [List.length_map] at hi
      have hmap : i < ((llms.zip outcomes).map fun p =>
          getChatCompletion p.1.llm_id p.1.api_provider prompt p.2).length := by
        rw [List.length_map, hzip]
        omega
      have hthis := h3 i hmap hi
      rw [List.getElem_map, List.getElem_zip] at hthis
      rw [List.getElem_map]
      exact (getChatCompletion_ok_inv _ _ _ _ _ hthis).2 m hm

/-- Witness for the amended C4: a mock batch over `[1, 2]` with no simulated
errors, and a live batch where the second provider fails. -/
theorem batch_completion_order_and_capture_witness :
    (∃ rs, batchMockLlmCompletion [1, 2] "hi" [⟨mkRat 1 2, 3⟩, ⟨mkRat 1 2, 4⟩]
        defaultMockConfig = .ok rs ∧
      rs.length = [(1 : Int), 2].length ∧
      ∀ i (hi : i < rs.length) (hi' : i < [(1 : Int), 2].length),
        rs[i].llm_id = [(1 : Int), 2][i]) ∧
    (∃ rs, getBatchChatCompletion
        [⟨"gpt-4.1", "Azure OpenAI"⟩, ⟨"m2", "OpenRouter"⟩] "hi"
        [.ok "x", .exn "boom"] = .ok rs ∧
      rs.length = ([⟨"gpt-4.1", "Azure OpenAI"⟩, ⟨"m2", "OpenRouter"⟩] :
        List LLMSelection).length ∧
      (∀ i (hi : i < rs.length) (hi' : i < ([⟨"gpt-4.1", "Azure OpenAI"⟩,
          ⟨"m2", "OpenRouter"⟩] : List LLMSelection).length),
        rs[i].llm_id = ([⟨"gpt-4.1", "Azure OpenAI"⟩, ⟨"m2", "OpenRouter"⟩] :
          List LLMSelection)[i].llm_id) ∧
      (∀ i (hi : i < rs.length)
          (hi' : i < ([ProviderOutcome.ok "x", ProviderOutcome.exn "boom"]).length), ∀ m,
        ([ProviderOutcome.ok "x", ProviderOutcome.exn "boom"])[i] = .exn m →
          rs[i].error = some ("Failed to generate response: " ++ m))) :=
  ⟨batch_completion_order_and_capture.1 [1, 2] "hi" [⟨mkRat 1 2, 3⟩, ⟨mkRat 1 2, 4⟩]
      defaultMockConfig (by decide) (by decide)
      (by
        intro p hp
        fin_cases hp
        · exact ⟨⟨1, "hi", "Thi"⟩, by decide⟩
        · exact ⟨⟨2, "hi", "This"⟩, by decide⟩),
   batch_completion_order_and_capture.2
      [⟨"gpt-4.1", "Azure OpenAI"⟩, ⟨"m2", "OpenRouter"⟩] "hi" [.ok "x", .exn "boom"]
      (by decide)
      (by
        intro sel hs
        fin_cases hs
        · exact ⟨⟨"Azure OpenAI"⟩, by decide⟩
        · exact ⟨⟨"OpenRouter"⟩, by decide⟩)⟩

end CompetingLLM
